import Mathlib

/-!
Verification of the weather-dashboard analysis core (`src/app.py`).

The embedding models the pandas/Python computations of `app.py`:

* temperatures are exact rationals (`ℚ`); the spec's data model states that
  NaN/Inf temperatures are rejected at ingestion, so finite values suffice
  for the observation data;
* statistics (the `std` column) may be NaN: the type `PF` is a rational
  extended with a NaN element, with NaN-propagating arithmetic and
  comparisons that are `false` whenever either side is NaN, exactly the
  IEEE-754 behaviour pandas/numpy exhibit on these operations;
* the floating-point square root used by `Series.std` is abstracted as a
  parameter `sq : ℚ → ℚ` applied to the (exact) sample variance.  Every
  theorem below is universally quantified over `sq`: no verified property
  depends on the numeric value of the square root, only on whether the
  standard deviation is NaN and on it being the same value on both sides
  of an equivalence.
-/

/-- The four season labels of the dataset (`season` column of the CSV). -/
inductive Season where
  | fall
  | spring
  | summer
  | winter
deriving DecidableEq, Repr

/-- All season labels, in the ascending (alphabetical) order that
`pandas.groupby` uses for its sorted group keys:
`"fall" < "spring" < "summer" < "winter"`. -/
def allSeasons : List Season :=
  [Season.fall, Season.spring, Season.summer, Season.winter]

/-- One row of the historical dataset: columns `city`, `timestamp`,
`temperature`, `season` (`load_data`, `app.py` lines 17-20).  The timestamp
is modelled as an integer epoch; it is only used for plotting. -/
structure Obs where
  city : String
  timestamp : ℤ
  temperature : ℚ
  season : Season
deriving DecidableEq, Repr

/-- A pandas float: either NaN or a finite value (modelled exactly). -/
inductive PF where
  | nan : PF
  | val : ℚ → PF
deriving DecidableEq, Repr

/-- NaN-propagating subtraction. -/
def PF.sub : PF → PF → PF
  | PF.val a, PF.val b => PF.val (a - b)
  | _, _ => PF.nan

/-- NaN-propagating addition. -/
def PF.add : PF → PF → PF
  | PF.val a, PF.val b => PF.val (a + b)
  | _, _ => PF.nan

/-- NaN-propagating multiplication. -/
def PF.mul : PF → PF → PF
  | PF.val a, PF.val b => PF.val (a * b)
  | _, _ => PF.nan

/-- IEEE `<`: false whenever either operand is NaN. -/
def PF.ltb : PF → PF → Bool
  | PF.val a, PF.val b => decide (a < b)
  | _, _ => false

/-- IEEE `<=`: false whenever either operand is NaN. -/
def PF.leb : PF → PF → Bool
  | PF.val a, PF.val b => decide (a ≤ b)
  | _, _ => false

/-- `get_current_season` (`app.py` lines 23-32), with the month of
`datetime.now()` made an explicit argument.  Note the final `else`: any
month not matched by the first three branches yields `fall`. -/
def get_current_season (month : ℤ) : Season :=
  if month ∈ ([12, 1, 2] : List ℤ) then Season.winter
  else if month ∈ ([3, 4, 5] : List ℤ) then Season.spring
  else if month ∈ ([6, 7, 8] : List ℤ) then Season.summer
  else Season.fall

/-- `df[df["city"] == selected_city]` (`app.py` line 88). -/
def cityData (df : List Obs) (city : String) : List Obs :=
  df.filter (fun o => decide (o.city = city))

/-- The `temperature` column of the rows of one season group:
`data.groupby("season")["temperature"]` restricted to key `s`. -/
def seasonTemps (data : List Obs) (s : Season) : List ℚ :=
  (data.filter (fun o => decide (o.season = s))).map (fun o => o.temperature)

/-- `Series.mean` of a (non-empty) group. -/
def groupMean (xs : List ℚ) : ℚ :=
  xs.sum / (xs.length : ℚ)

/-- `Series.std` of a group: pandas' default `ddof = 1`, i.e. the square
root of the sum of squared deviations divided by `n - 1`; NaN when the
group has fewer than two elements (for `n = 1` the division is `0/0`).
`sq` abstracts the floating-point square root. -/
def sampleStd (sq : ℚ → ℚ) (xs : List ℚ) : PF :=
  if xs.length ≤ 1 then PF.nan
  else PF.val (sq ((xs.map (fun x => (x - groupMean xs) ^ 2)).sum / ((xs.length : ℚ) - 1)))

/-- The season keys actually present in the data, in pandas' sorted key
order: the groups of `data.groupby("season")`. -/
def seasonsPresent (data : List Obs) : List Season :=
  allSeasons.filter (fun s => !(seasonTemps data s).isEmpty)

/-- One row of the `city_stats` frame: columns `season`, `mean`, `std`
(`reset_index` applied to the groupby aggregate). -/
structure StatsRow where
  season : Season
  mean : ℚ
  std : PF
deriving DecidableEq, Repr

/-- `city_stats = city_data.groupby("season")["temperature"].agg(["mean", "std"]).reset_index()`
(`app.py` lines 90-94): one row per season present, holding that season's
mean and sample standard deviation. -/
def cityStats (sq : ℚ → ℚ) (data : List Obs) : List StatsRow :=
  (seasonsPresent data).map
    (fun s => StatsRow.mk s (groupMean (seasonTemps data s)) (sampleStd sq (seasonTemps data s)))

/-- `city_stats[city_stats["season"] == season].iloc[0]` (`app.py` line 38):
the boolean-mask filter followed by taking the first row; `none` models the
`IndexError` raised by `.iloc[0]` on an empty selection. -/
def lookupSeason (stats : List StatsRow) (s : Season) : Option StatsRow :=
  (stats.filter (fun r => decide (r.season = s))).head?

/-- `is_normal = (mean - 2 * std) <= temp <= (mean + 2 * std)`
(`app.py` line 40).  Python's chained comparison is the conjunction of the
two comparisons; with IEEE semantics each conjunct is `false` when `std`
is NaN. -/
def isNormalB (temp m : ℚ) (s : PF) : Bool :=
  PF.leb (PF.sub (PF.val m) (PF.mul (PF.val 2) s)) (PF.val temp) &&
    PF.leb (PF.val temp) (PF.add (PF.val m) (PF.mul (PF.val 2) s))

/-- `check_temperature_normality` (`app.py` lines 36-41), with the month of
the wall clock made explicit.  Returns `(is_normal, mean, std)`; `none`
models the exception escaping from `.iloc[0]` when the current season has
no row in `city_stats`. -/
def check_temperature_normality (temp : ℚ) (city_stats : List StatsRow) (month : ℤ) :
    Option (Bool × ℚ × PF) :=
  match lookupSeason city_stats (get_current_season month) with
  | none => none
  | some row => some (isNormalB temp row.mean row.std, row.mean, row.std)

/-- `mean = city_data.groupby("season")["temperature"].transform("mean")`
(`app.py` line 101): the per-row series of group means. -/
def transformMean (data : List Obs) : List ℚ :=
  data.map (fun o => groupMean (seasonTemps data o.season))

/-- `std = city_data.groupby("season")["temperature"].transform("std")`
(`app.py` line 102): the per-row series of group standard deviations. -/
def transformStd (sq : ℚ → ℚ) (data : List Obs) : List PF :=
  data.map (fun o => sampleStd sq (seasonTemps data o.season))

/-- `temp < mean - 2*std  |  temp > mean + 2*std` for one row. -/
def anomalyFlagB (t m : ℚ) (s : PF) : Bool :=
  PF.ltb (PF.val t) (PF.sub (PF.val m) (PF.mul (PF.val 2) s)) ||
    PF.ltb (PF.add (PF.val m) (PF.mul (PF.val 2) s)) (PF.val t)

/-- `anomalies = (city_data["temperature"] < (mean - 2 * std)) | (city_data["temperature"] > (mean + 2 * std))`
(`app.py` lines 103-105): the boolean mask, combined row-wise from the
temperature column and the two transform series. -/
def anomalies (sq : ℚ → ℚ) (data : List Obs) : List Bool :=
  (data.zip ((transformMean data).zip (transformStd sq data))).map
    (fun p => anomalyFlagB p.1.temperature p.2.1 p.2.2)

/-- Arithmetic average, stated from the spec's words (§4.2). -/
def specMean (xs : List ℚ) : ℚ :=
  xs.sum / (xs.length : ℚ)

/-- Sample variance with divisor `n - 1`, stated from the spec's words
(§4.2): the standard deviation is the square root of this value. -/
def specSampleVariance (xs : List ℚ) : ℚ :=
  (xs.map (fun x => (x - specMean xs) ^ 2)).sum / ((xs.length : ℚ) - 1)

/-- Concrete dataset for witnesses: one Berlin winter observation. -/
def dSingle : List Obs :=
  [Obs.mk "Berlin" 0 10 Season.winter]

/-- Concrete dataset for witnesses: a city with a two-observation winter
and a one-observation summer. -/
def dMixed : List Obs :=
  [Obs.mk "Berlin" 0 0 Season.winter,
   Obs.mk "Berlin" 1 2 Season.winter,
   Obs.mk "Berlin" 2 5 Season.summer]

/-- Concrete stats table for witnesses: winter mean 0, std 3 (the spec's
§8 live-classification scenario). -/
def statsWinter : List StatsRow :=
  [StatsRow.mk Season.winter 0 (PF.val 3)]

/-- Concrete stats table for witnesses: a winter row whose std is NaN. -/
def statsNan : List StatsRow :=
  [StatsRow.mk Season.winter 1 PF.nan]

/-! ### General lemmas about the grouped statistics table -/

/-- Fusing the row-wise zip of the two transform series back into a single
map over the observations. -/
theorem zip_map_map {α β γ δ : Type _} (l : List α) (f : α → β) (g : α → γ)
    (F : α → β → γ → δ) :
    ((l.zip ((l.map f).zip (l.map g))).map (fun p => F p.1 p.2.1 p.2.2)) =
      l.map (fun a => F a (f a) (g a)) := by
  induction l with
  | nil => rfl
  | cons a t ih => simpa using ih

/-- The anomaly mask, rewritten as a single map over the observations. -/
theorem anomalies_eq_map (sq : ℚ → ℚ) (data : List Obs) :
    anomalies sq data =
      data.map (fun o =>
        anomalyFlagB o.temperature (groupMean (seasonTemps data o.season))
          (sampleStd sq (seasonTemps data o.season))) := by
  unfold anomalies transformMean transformStd
  exact zip_map_map data (fun o => groupMean (seasonTemps data o.season))
    (fun o => sampleStd sq (seasonTemps data o.season))
    (fun o m s => anomalyFlagB o.temperature m s)

/-- The anomaly mask has one entry per observation. -/
theorem anomalies_length (sq : ℚ → ℚ) (data : List Obs) :
    (anomalies sq data).length = data.length := by
  rw [anomalies_eq_map]
  exact List.length_map data _

/-- Entry `i` of the anomaly mask is the two-sigma test of observation `i`
against its own season's transform statistics. -/
theorem anomalies_getElem (sq : ℚ → ℚ) (data : List Obs) (i : ℕ)
    (hi : i < data.length) (ha : i < (anomalies sq data).length) :
    (anomalies sq data)[i] =
      anomalyFlagB (data[i]).temperature
        (groupMean (seasonTemps data (data[i]).season))
        (sampleStd sq (seasonTemps data (data[i]).season)) := by
  simp only [anomalies_eq_map, List.getElem_map]

/-- A member observation's season always has a non-empty temperature
group. -/
theorem seasonTemps_ne_nil_of_mem (data : List Obs) (o : Obs) (ho : o ∈ data) :
    seasonTemps data o.season ≠ [] := by
  unfold seasonTemps
  intro h
  have hmem : o ∈ data.filter (fun x => decide (x.season = o.season)) :=
    List.mem_filter.mpr ⟨ho, by simp⟩
  rw [List.map_eq_nil_iff.mp h] at hmem
  cases hmem

/-- Rows built from seasons not containing `s` never survive the
season-equality mask. -/
theorem rows_filter_of_not_mem (p : Season → Bool) (mk : Season → StatsRow)
    (hmk : ∀ s, (mk s).season = s) (l : List Season) (s : Season) (hs : s ∉ l) :
    ((l.filter p).map mk).filter (fun r => decide (r.season = s)) = [] := by
  induction l with
  | nil => rfl
  | cons a t ih =>
    have hat : s ∉ t := fun h => hs (List.mem_cons_of_mem a h)
    have has : a ≠ s := fun h => hs (h ▸ List.mem_cons_self a t)
    by_cases hp : p a = true
    · simp [List.filter_cons, hp, hmk, has, ih hat]
    · simp [List.filter_cons, hp, ih hat]

/-- If the key predicate rejects `s`, no row for `s` appears. -/
theorem rows_filter_of_p_false (p : Season → Bool) (mk : Season → StatsRow)
    (hmk : ∀ s, (mk s).season = s) (l : List Season) (s : Season)
    (hp : p s = false) :
    ((l.filter p).map mk).filter (fun r => decide (r.season = s)) = [] := by
  induction l with
  | nil => rfl
  | cons a t ih =>
    by_cases hpa : p a = true
    · have ha : a ≠ s := by
        rintro rfl
        rw [hpa] at hp
        cases hp
      simp [List.filter_cons, hpa, hmk, ha, ih]
    · simp [List.filter_cons, hpa, ih]

/-- On a duplicate-free key list containing `s`, with the key predicate
accepting `s`, the season-equality mask selects exactly the row of `s`. -/
theorem rows_filter_of_nodup (p : Season → Bool) (mk : Season → StatsRow)
    (hmk : ∀ s, (mk s).season = s) (l : List Season) (s : Season)
    (hnd : l.Nodup) (hmem : s ∈ l) (hp : p s = true) :
    ((l.filter p).map mk).filter (fun r => decide (r.season = s)) = [mk s] := by
  induction l with
  | nil => cases hmem
  | cons a t ih =>
    rcases List.mem_cons.mp hmem with h | h
    · subst h
      have hst : s ∉ t := (List.nodup_cons.mp hnd).1
      simp [List.filter_cons, hp, hmk, rows_filter_of_not_mem p mk hmk t s hst]
    · have ha : a ≠ s := by
        rintro rfl
        exact (List.nodup_cons.mp hnd).1 h
      have htail := ih (List.nodup_cons.mp hnd).2 h
      by_cases hpa : p a = true
      · simp [List.filter_cons, hpa, hmk, ha, htail]
      · simp [List.filter_cons, hpa, htail]

/-- Looking a present season up in the aggregate table yields exactly that
season's mean and sample standard deviation. -/
theorem lookupSeason_cityStats (sq : ℚ → ℚ) (data : List Obs) (s : Season)
    (h : seasonTemps data s ≠ []) :
    lookupSeason (cityStats sq data) s =
      some (StatsRow.mk s (groupMean (seasonTemps data s))
        (sampleStd sq (seasonTemps data s))) := by
  unfold lookupSeason cityStats seasonsPresent
  rw [rows_filter_of_nodup _ _ (fun _ => rfl) allSeasons s (by decide)
    (by cases s <;> decide) (by simp [h])]
  rfl

/-- Looking an absent season up in the aggregate table yields no row. -/
theorem lookupSeason_cityStats_none (sq : ℚ → ℚ) (data : List Obs) (s : Season)
    (h : seasonTemps data s = []) :
    lookupSeason (cityStats sq data) s = none := by
  unfold lookupSeason cityStats seasonsPresent
  rw [rows_filter_of_p_false _ _ (fun _ => rfl) allSeasons s (by simp [h])]
  rfl

/-! ### Claim theorems -/

/-- C7: for every month 1..12, `get_current_season` maps it by the fixed
table: 12, 1, 2 to winter; 3, 4, 5 to spring; 6, 7, 8 to summer;
9, 10, 11 to fall. -/
theorem season_table_all_months :
    get_current_season 1 = Season.winter ∧ get_current_season 2 = Season.winter ∧
    get_current_season 3 = Season.spring ∧ get_current_season 4 = Season.spring ∧
    get_current_season 5 = Season.spring ∧ get_current_season 6 = Season.summer ∧
    get_current_season 7 = Season.summer ∧ get_current_season 8 = Season.summer ∧
    get_current_season 9 = Season.fall ∧ get_current_season 10 = Season.fall ∧
    get_current_season 11 = Season.fall ∧ get_current_season 12 = Season.winter := by
  decide

/-- C8 counterexample: at the out-of-range month 13 the season assigner
does not fail — it returns the season label `fall` (the bare `else`
branch of `get_current_season`), refuting "fails with an InvalidMonth
error rather than returning any season label". -/
theorem month_13_returns_fall :
    get_current_season 13 = Season.fall := by
  decide

/-- C8 amended: for every integer month outside 1..12, `get_current_season`
returns `fall` (the catch-all `else` branch); no InvalidMonth error path
exists in the code. -/
theorem out_of_range_month_returns_fall (m : ℤ) (h : m < 1 ∨ 12 < m) :
    get_current_season m = Season.fall := by
  have h1 : ¬ (m ∈ ([12, 1, 2] : List ℤ)) := by
    intro hm
    simp only [List.mem_cons, List.not_mem_nil, or_false] at hm
    omega
  have h2 : ¬ (m ∈ ([3, 4, 5] : List ℤ)) := by
    intro hm
    simp only [List.mem_cons, List.not_mem_nil, or_false] at hm
    omega
  have h3 : ¬ (m ∈ ([6, 7, 8] : List ℤ)) := by
    intro hm
    simp only [List.mem_cons, List.not_mem_nil, or_false] at hm
    omega
  simp [get_current_season, h1, h2, h3]

/-- C8 witness: month 0 is out of range and maps to `fall`. -/
theorem out_of_range_month_returns_fall_witness :
    ((0 : ℤ) < 1 ∨ 12 < (0 : ℤ)) ∧ get_current_season 0 = Season.fall :=
  ⟨by decide, out_of_range_month_returns_fall 0 (by decide)⟩

/-- C9 counterexample: for a city absent from the dataset, the stats
pipeline returns an empty table rather than failing with an UnknownCity
error — no such error path exists in the code (`main` only offers cities
present in the dataset). -/
theorem unknown_city_gives_empty_stats :
    cityStats (fun q => q) (cityData dSingle "Paris") = [] := by
  decide

/-- C9 amended: for every dataset and every city with zero observations,
the computed seasonal-baseline table is empty; no error is raised. -/
theorem cityStats_empty_of_unknown_city (sq : ℚ → ℚ) (df : List Obs)
    (city : String) (h : cityData df city = []) :
    cityStats sq (cityData df city) = [] := by
  rw [h]
  rfl

/-- C9 witness: the single-row Berlin dataset has no Paris observations,
and its Paris baseline table is empty. -/
theorem cityStats_empty_of_unknown_city_witness :
    cityData dSingle "Paris" = [] ∧
      cityStats (fun q => q) (cityData dSingle "Paris") = [] :=
  ⟨by decide, cityStats_empty_of_unknown_city (fun q => q) dSingle "Paris" (by decide)⟩

/-- C5: when the selected city has no observation in the current season,
`check_temperature_normality` fails — the empty `.iloc[0]` lookup, modelled
as `none` — and never returns a default classification. -/
theorem check_fails_when_season_absent (sq : ℚ → ℚ) (df : List Obs)
    (city : String) (temp : ℚ) (month : ℤ)
    (h : seasonTemps (cityData df city) (get_current_season month) = []) :
    check_temperature_normality temp (cityStats sq (cityData df city)) month = none := by
  unfold check_temperature_normality
  rw [lookupSeason_cityStats_none sq _ _ h]

/-- C5 witness: Berlin has only a winter observation, so a live check in
June (summer) fails with no classification. -/
theorem check_fails_when_season_absent_witness :
    seasonTemps (cityData dSingle "Berlin") (get_current_season 6) = [] ∧
      check_temperature_normality 5 (cityStats (fun q => q) (cityData dSingle "Berlin")) 6 = none :=
  ⟨by decide, check_fails_when_season_absent (fun q => q) dSingle "Berlin" 5 6 (by decide)⟩

/-- C3: for a live temperature and a baseline row with (non-NaN) finite
mean and std, the classifier returns that row's mean and std together with
`is_normal`, and `is_normal` holds exactly when
`mean - 2*std ≤ temp ≤ mean + 2*std`, both bounds inclusive. -/
theorem check_is_normal_iff_within_two_sigma (temp : ℚ) (stats : List StatsRow)
    (month : ℤ) (m σ : ℚ)
    (hb : lookupSeason stats (get_current_season month) =
      some (StatsRow.mk (get_current_season month) m (PF.val σ))) :
    check_temperature_normality temp stats month =
        some (isNormalB temp m (PF.val σ), m, PF.val σ) ∧
      (isNormalB temp m (PF.val σ) = true ↔ (m - 2 * σ ≤ temp ∧ temp ≤ m + 2 * σ)) := by
  constructor
  · simp [check_temperature_normality, hb]
  · simp [isNormalB, PF.leb, PF.sub, PF.add, PF.mul]

/-- C3 witness: winter baseline mean 0, std 3, live temperature 5 in
January: the classifier reports it and `is_normal` is the inclusive
two-sigma test (the spec's §8 scenario, here `-6 ≤ 5 ≤ 6`). -/
theorem check_is_normal_iff_within_two_sigma_witness :
    (lookupSeason statsWinter (get_current_season 1) =
        some (StatsRow.mk (get_current_season 1) 0 (PF.val 3))) ∧
      (check_temperature_normality 5 statsWinter 1 =
          some (isNormalB 5 0 (PF.val 3), 0, PF.val 3) ∧
        (isNormalB 5 0 (PF.val 3) = true ↔
          ((0 : ℚ) - 2 * 3 ≤ 5 ∧ (5 : ℚ) ≤ 0 + 2 * 3))) :=
  ⟨by decide, check_is_normal_iff_within_two_sigma 5 statsWinter 1 0 3 (by decide)⟩

/-- C4 counterexample: with a NaN std in the current season's row, the
classifier does not report an indeterminate result — the NaN comparisons
evaluate to false and it returns `is_normal = false` (shown to the user as
"anomalous"), refuting "not coerced to true nor to false". -/
theorem check_nan_std_coerces_to_false :
    check_temperature_normality 5 statsNan 1 = some (false, 1, PF.nan) := by
  decide

/-- C4 amended: when the current season's baseline row has std = NaN, the
classifier returns `is_normal = false` (both chained NaN comparisons are
false), i.e. the result is coerced to false, not reported as
indeterminate. -/
theorem check_nan_std_is_normal_false (temp : ℚ) (stats : List StatsRow)
    (month : ℤ) (m : ℚ)
    (hb : lookupSeason stats (get_current_season month) =
      some (StatsRow.mk (get_current_season month) m PF.nan)) :
    check_temperature_normality temp stats month = some (false, m, PF.nan) := by
  simp [check_temperature_normality, hb, isNormalB, PF.leb, PF.sub, PF.mul]

/-- C4 witness: live temperature 7 against the NaN-std winter row yields
`is_normal = false`. -/
theorem check_nan_std_is_normal_false_witness :
    (lookupSeason statsNan (get_current_season 2) =
        some (StatsRow.mk (get_current_season 2) 1 PF.nan)) ∧
      check_temperature_normality 7 statsNan 2 = some (false, 1, PF.nan) :=
  ⟨by decide, check_nan_std_is_normal_false 7 statsNan 2 1 (by decide)⟩

/-- C1: an observation whose season's baseline row (in the aggregate
table) has a non-NaN std is flagged anomalous by the transform-based mask
iff its temperature lies strictly outside `mean ± 2*std` of that
baseline. -/
theorem anomalous_iff_outside_two_sigma (sq : ℚ → ℚ) (data : List Obs)
    (i : ℕ) (hi : i < data.length) (ha : i < (anomalies sq data).length)
    (m σ : ℚ)
    (hb : lookupSeason (cityStats sq data) (data[i].season) =
      some (StatsRow.mk (data[i].season) m (PF.val σ))) :
    ((anomalies sq data)[i] = true ↔
      (data[i].temperature < m - 2 * σ ∨ m + 2 * σ < data[i].temperature)) := by
  have hmem : data[i] ∈ data := List.getElem_mem hi
  have hne := seasonTemps_ne_nil_of_mem data _ hmem
  rw [lookupSeason_cityStats sq data _ hne] at hb
  simp only [Option.some.injEq, StatsRow.mk.injEq, true_and] at hb
  obtain ⟨h1, h2⟩ := hb
  rw [anomalies_getElem sq data i hi ha, h1, h2]
  simp [anomalyFlagB, PF.ltb, PF.sub, PF.add, PF.mul]

/-- C1 witness: in the mixed dataset the first observation (temperature 0,
winter mean 1, winter variance 2, so std 2 under the identity square root)
satisfies the equivalence; the baseline values are left as their defining
expressions because kernel reduction of normalized rationals is
unavailable. -/
theorem anomalous_iff_outside_two_sigma_witness :
    ((0 : ℕ) < dMixed.length ∧ (0 : ℕ) < (anomalies (fun q => q) dMixed).length ∧
      lookupSeason (cityStats (fun q => q) dMixed) ((getElem dMixed 0 (by decide)).season) =
        some (StatsRow.mk ((getElem dMixed 0 (by decide)).season)
          (groupMean (seasonTemps dMixed Season.winter))
          (PF.val (specSampleVariance (seasonTemps dMixed Season.winter))))) ∧
      ((getElem (anomalies (fun q => q) dMixed) 0 (by decide)) = true ↔
        ((getElem dMixed 0 (by decide)).temperature <
            groupMean (seasonTemps dMixed Season.winter) -
              2 * specSampleVariance (seasonTemps dMixed Season.winter) ∨
          groupMean (seasonTemps dMixed Season.winter) +
              2 * specSampleVariance (seasonTemps dMixed Season.winter) <
            (getElem dMixed 0 (by decide)).temperature)) :=
  ⟨⟨by decide, by decide, rfl⟩,
    anomalous_iff_outside_two_sigma (fun q => q) dMixed 0 (by decide) (by decide)
      (groupMean (seasonTemps dMixed Season.winter))
      (specSampleVariance (seasonTemps dMixed Season.winter)) rfl⟩

/-- C6: an observation whose season's baseline is missing from the
aggregate table, or has std = NaN (a single-observation season), is not
flagged anomalous by the mask; the computation is total, so no error is
raised. -/
theorem nan_or_missing_baseline_not_anomalous (sq : ℚ → ℚ) (data : List Obs)
    (i : ℕ) (hi : i < data.length) (ha : i < (anomalies sq data).length)
    (h : lookupSeason (cityStats sq data) (data[i].season) = none ∨
      sampleStd sq (seasonTemps data (data[i].season)) = PF.nan) :
    (anomalies sq data)[i] = false := by
  rcases h with h | h
  · exfalso
    have hmem : data[i] ∈ data := List.getElem_mem hi
    have hne := seasonTemps_ne_nil_of_mem data _ hmem
    rw [lookupSeason_cityStats sq data _ hne] at h
    cases h
  · rw [anomalies_getElem sq data i hi ha, h]
    simp [anomalyFlagB, PF.ltb, PF.sub, PF.add, PF.mul]

/-- C6 witness: the sole winter observation of the single-row dataset has
a NaN-std season and is not flagged. -/
theorem nan_or_missing_baseline_not_anomalous_witness :
    ((0 : ℕ) < dSingle.length ∧ (0 : ℕ) < (anomalies (fun q => q) dSingle).length ∧
      (lookupSeason (cityStats (fun q => q) dSingle) ((getElem dSingle 0 (by decide)).season) = none ∨
        sampleStd (fun q => q) (seasonTemps dSingle ((getElem dSingle 0 (by decide)).season)) = PF.nan)) ∧
      (getElem (anomalies (fun q => q) dSingle) 0 (by decide)) = false :=
  ⟨⟨by decide, by decide, Or.inr (by decide)⟩,
    nan_or_missing_baseline_not_anomalous (fun q => q) dSingle 0 (by decide) (by decide)
      (Or.inr (by decide))⟩

/-- C2: for a season of the selected city with at least two observations,
the stored baseline row holds the arithmetic average and the square root
of the sample variance with divisor `n - 1`; for a season with exactly one
observation the stored std is NaN, not zero. -/
theorem cityStats_mean_and_sample_std (sq : ℚ → ℚ) (df : List Obs)
    (city : String) (s : Season) :
    (2 ≤ (seasonTemps (cityData df city) s).length →
      lookupSeason (cityStats sq (cityData df city)) s =
        some (StatsRow.mk s (specMean (seasonTemps (cityData df city) s))
          (PF.val (sq (specSampleVariance (seasonTemps (cityData df city) s)))))) ∧
    ((seasonTemps (cityData df city) s).length = 1 →
      lookupSeason (cityStats sq (cityData df city)) s =
        some (StatsRow.mk s (specMean (seasonTemps (cityData df city) s)) PF.nan)) := by
  constructor
  · intro h2
    have hne : seasonTemps (cityData df city) s ≠ [] := by
      intro hnil
      rw [hnil] at h2
      simp at h2
    rw [lookupSeason_cityStats sq _ _ hne]
    unfold sampleStd
    rw [if_neg (by omega)]
    rfl
  · intro h1
    have hne : seasonTemps (cityData df city) s ≠ [] := by
      intro hnil
      rw [hnil] at h1
      simp at h1
    rw [lookupSeason_cityStats sq _ _ hne]
    unfold sampleStd
    rw [if_pos (by omega)]
    rfl

/-- C2 witness: Berlin's winter (temperatures 0 and 2) gets mean 1 and the
square root of variance 2; its summer (single temperature 5) gets std
NaN. -/
theorem cityStats_mean_and_sample_std_witness :
    (2 ≤ (seasonTemps (cityData dMixed "Berlin") Season.winter).length ∧
      lookupSeason (cityStats (fun q => q) (cityData dMixed "Berlin")) Season.winter =
        some (StatsRow.mk Season.winter
          (specMean (seasonTemps (cityData dMixed "Berlin") Season.winter))
          (PF.val ((fun q => q)
            (specSampleVariance (seasonTemps (cityData dMixed "Berlin") Season.winter)))))) ∧
    ((seasonTemps (cityData dMixed "Berlin") Season.summer).length = 1 ∧
      lookupSeason (cityStats (fun q => q) (cityData dMixed "Berlin")) Season.summer =
        some (StatsRow.mk Season.summer
          (specMean (seasonTemps (cityData dMixed "Berlin") Season.summer)) PF.nan)) :=
  ⟨⟨by decide, (cityStats_mean_and_sample_std (fun q => q) dMixed "Berlin" Season.winter).1 (by decide)⟩,
    ⟨by decide, (cityStats_mean_and_sample_std (fun q => q) dMixed "Berlin" Season.summer).2 (by decide)⟩⟩

/-- C10: for every observation, the per-row mean and std produced by the
groupby-transform series (historical anomaly flagging) equal the mean and
std stored for that observation's season in the groupby-aggregate table
(live classification): the two statistics computations agree. -/
theorem transform_agrees_with_aggregate (sq : ℚ → ℚ) (data : List Obs)
    (i : ℕ) (hi : i < data.length) (hm : i < (transformMean data).length)
    (hs : i < (transformStd sq data).length) :
    lookupSeason (cityStats sq data) (data[i].season) =
      some (StatsRow.mk (data[i].season) ((transformMean data)[i])
        ((transformStd sq data)[i])) := by
  have hmem : data[i] ∈ data := List.getElem_mem hi
  have hne := seasonTemps_ne_nil_of_mem data _ hmem
  rw [lookupSeason_cityStats sq data _ hne]
  simp [transformMean, transformStd]

/-- C10 witness: for the third observation (the single summer reading) the
aggregate row equals the transform values, including the NaN std. -/
theorem transform_agrees_with_aggregate_witness :
    ((2 : ℕ) < dMixed.length ∧ (2 : ℕ) < (transformMean dMixed).length ∧
      (2 : ℕ) < (transformStd (fun q => q) dMixed).length) ∧
      lookupSeason (cityStats (fun q => q) dMixed) ((getElem dMixed 2 (by decide)).season) =
        some (StatsRow.mk ((getElem dMixed 2 (by decide)).season)
          (getElem (transformMean dMixed) 2 (by decide))
          (getElem (transformStd (fun q => q) dMixed) 2 (by decide))) :=
  ⟨⟨by decide, by decide, by decide⟩,
    transform_agrees_with_aggregate (fun q => q) dMixed 2 (by decide) (by decide) (by decide)⟩
